import Mathlib

/-!
Verification of the trading-bot repository: a shallow embedding of
`bot/validators.py`, `bot/client.py`, `bot/orders.py` and `cli.py`,
together with theorems settling the frozen claims about the spec.

Python's `decimal.Decimal` values are modelled by `Dec` (sign, coefficient,
exponent, plus infinities and NaNs), strings by Lean `String` restricted to
the ASCII fragment of Python's `str` methods, and exceptions by explicit
`Except` results: `PyErr.valueError` is a Python `ValueError` (the spec's
`InvalidInput`), `PyErr.invalidOperation` a `decimal.InvalidOperation`
escaping uncaught.
-/

/-- Model of a `decimal.Decimal` value: finite values are
`(-1)^sign * coeff * 10^exp` with `coeff` the coefficient digits read as a
natural number, plus signed infinities and (quiet or signaling) NaNs. -/
inductive Dec where
  | finite (sign : Bool) (coeff : Nat) (exp : Int)
  | inf (sign : Bool)
  | nan (signaling : Bool) (sign : Bool)
deriving DecidableEq, Repr

/-- ASCII whitespace stripped by Python's `str.strip()`. -/
def isPySpace (c : Char) : Bool :=
  c = ' ' || c = '\t' || c = '\n' || c = '\r' || c = '\x0b' || c = '\x0c'

/-- Strip `isPySpace` characters from both ends of a character list. -/
def stripList (cs : List Char) : List Char :=
  ((cs.dropWhile isPySpace).reverse.dropWhile isPySpace).reverse

/-- Model of Python `str.strip()` (ASCII fragment). -/
def pyStrip (s : String) : String :=
  String.mk (stripList s.toList)

/-- Lower-case an ASCII letter, leaving other characters unchanged. -/
def lowerChar (c : Char) : Char :=
  if 65 ≤ c.toNat ∧ c.toNat ≤ 90 then Char.ofNat (c.toNat + 32) else c

/-- Upper-case an ASCII letter, leaving other characters unchanged. -/
def upperChar (c : Char) : Char :=
  if 97 ≤ c.toNat ∧ c.toNat ≤ 122 then Char.ofNat (c.toNat - 32) else c

/-- Model of Python `str.upper()` (ASCII fragment). -/
def pyUpper (s : String) : String :=
  String.mk (s.toList.map upperChar)

/-- ASCII letter test; the ASCII fragment of Python's `str.isalpha()`
per-character test. -/
def isAlphaChar (c : Char) : Bool :=
  (65 ≤ c.toNat && c.toNat ≤ 90) || (97 ≤ c.toNat && c.toNat ≤ 122)

/-- Model of Python `str.isalpha()` (ASCII fragment): non-empty and all
characters alphabetic. -/
def pyIsAlpha (s : String) : Bool :=
  !s.toList.isEmpty && s.toList.all isAlphaChar

/-- Numeric value of a digit list (most significant first). -/
def natOfDigits (ds : List Char) : Nat :=
  ds.foldl (fun a c => a * 10 + (c.toNat - 48)) 0

/-- Parse the exponent part of a numeric string: an optional sign followed
by one or more digits, consuming the whole input. -/
def parseExpInt (cs : List Char) : Option Int :=
  let sp := match cs with
    | '+' :: r => (false, r)
    | '-' :: r => (true, r)
    | _ => (false, cs)
  let dr := sp.2.span Char.isDigit
  if dr.1.isEmpty || !dr.2.isEmpty then none
  else some (if sp.1 then -(natOfDigits dr.1 : Int) else (natOfDigits dr.1 : Int))

/-- Parse the numeric (non-Inf, non-NaN) body of a decimal string:
`digits [. digits] [(e|E) [sign] digits]` with at least one coefficient
digit, consuming the whole input.  Mirrors `_pydecimal`'s parser: the
coefficient is the integer and fraction digits run together, and the
exponent is lowered by the number of fraction digits. -/
def parseNumeric (sgn : Bool) (cs : List Char) : Option Dec :=
  let ipr := cs.span Char.isDigit
  let fpr := match ipr.2 with
    | '.' :: rest => rest.span Char.isDigit
    | _ => ([], ipr.2)
  if ipr.1.isEmpty && fpr.1.isEmpty then none
  else
    let coeff := natOfDigits (ipr.1 ++ fpr.1)
    let fe : Int := fpr.1.length
    match fpr.2 with
    | [] => some (Dec.finite sgn coeff (0 - fe))
    | c :: rest =>
      if c = 'e' ∨ c = 'E' then
        match parseExpInt rest with
        | some ev => some (Dec.finite sgn coeff (ev - fe))
        | none => none
      else none

/-- Model of `decimal.Decimal(s)` for a string argument, following
`_pydecimal`: strip whitespace, drop underscores, then match
`[sign] (numeric | Inf[inity] | [s]NaN digits*)` case-insensitively.
Returns `none` where the constructor raises `InvalidOperation` (which
`validate_quantity`/`validate_price` convert to `ValueError`). -/
def pyDecParse (s : String) : Option Dec :=
  let cs := (pyStrip s).toList.filter (fun c => c ≠ '_')
  let sp := match cs with
    | '+' :: r => (false, r)
    | '-' :: r => (true, r)
    | _ => (false, cs)
  let low := sp.2.map lowerChar
  if low = ['i', 'n', 'f'] ∨ low = ['i', 'n', 'f', 'i', 'n', 'i', 't', 'y'] then
    some (Dec.inf sp.1)
  else
    match low with
    | 'n' :: 'a' :: 'n' :: rest =>
      if rest.all Char.isDigit then some (Dec.nan false sp.1) else none
    | 's' :: 'n' :: 'a' :: 'n' :: rest =>
      if rest.all Char.isDigit then some (Dec.nan true sp.1) else none
    | _ => parseNumeric sp.1 sp.2

/-- Model of `decimal.Decimal` ordered comparison: `none` when either
operand is a NaN (Python raises `InvalidOperation` there), otherwise the
ordering of the numeric values. -/
def decCompare (a b : Dec) : Option Ordering :=
  match a, b with
  | Dec.nan _ _, _ => none
  | _, Dec.nan _ _ => none
  | Dec.inf sa, Dec.inf sb =>
    some (if sa = sb then Ordering.eq else if sa then Ordering.lt else Ordering.gt)
  | Dec.inf sa, Dec.finite _ _ _ => some (if sa then Ordering.lt else Ordering.gt)
  | Dec.finite _ _ _, Dec.inf sb => some (if sb then Ordering.gt else Ordering.lt)
  | Dec.finite sa ca ea, Dec.finite sb cb eb =>
    let va : Int := (if sa then -(ca : Int) else (ca : Int)) * 10 ^ (ea - min ea eb).toNat
    let vb : Int := (if sb then -(cb : Int) else (cb : Int)) * 10 ^ (eb - min ea eb).toNat
    some (compare va vb)

/-- Model of Python's `a <= b` on Decimals: `none` when the comparison
signals `InvalidOperation` (a NaN operand). -/
def decLE (a b : Dec) : Option Bool :=
  (decCompare a b).map (fun o => match o with | Ordering.gt => false | _ => true)

/-- The Decimal zero (`Decimal(0)`), the right-hand side of the
validators' `<= 0` checks. -/
def decZero : Dec := Dec.finite false 0 0

/-- Model of `str()` on a Decimal, following `_pydecimal.__str__`:
fixed-point when the exponent is at most zero and the adjusted exponent is
at least -6, scientific notation (capital `E`, explicit exponent sign)
otherwise. -/
def decToString : Dec → String
  | Dec.inf sgn => if sgn then "-Infinity" else "Infinity"
  | Dec.nan sig sgn => (if sgn then "-" else "") ++ (if sig then "sNaN" else "NaN")
  | Dec.finite sgn c e =>
    let ds := Nat.repr c
    let n : Int := ds.length
    let leftdigits : Int := e + n
    let dotplace : Int := if e ≤ 0 ∧ leftdigits > -6 then leftdigits else 1
    let intpart : String :=
      if dotplace ≤ 0 then "0"
      else if dotplace ≥ n then ds ++ String.mk (List.replicate (dotplace - n).toNat '0')
      else String.mk (ds.toList.take dotplace.toNat)
    let fracpart : String :=
      if dotplace ≤ 0 then "." ++ String.mk (List.replicate (0 - dotplace).toNat '0') ++ ds
      else if dotplace ≥ n then ""
      else "." ++ String.mk (ds.toList.drop dotplace.toNat)
    let exppart : String :=
      if leftdigits = dotplace then ""
      else "E" ++ (if 0 ≤ leftdigits - dotplace then "+" else "") ++ Int.repr (leftdigits - dotplace)
    (if sgn then "-" else "") ++ intpart ++ fracpart ++ exppart

/-- Exceptions that can escape the embedded functions: `valueError` models
a Python `ValueError` (the spec's `InvalidInput`); `invalidOperation`
models an uncaught `decimal.InvalidOperation`. -/
inductive PyErr where
  | valueError (msg : String)
  | invalidOperation
deriving DecidableEq, Repr

/-- Embedding of `validators.validate_symbol`: reject empty input, trim
and upper-case, then require all-alphabetic and length in [3, 20]. -/
def validate_symbol (symbol : String) : Except PyErr String :=
  if symbol = "" ∨ pyStrip symbol = "" then
    Except.error (PyErr.valueError "Symbol must not be empty.")
  else
    let sym := pyUpper (pyStrip symbol)
    if !pyIsAlpha sym then
      Except.error (PyErr.valueError
        ("Symbol " ++ sym ++ " must contain only letters (e.g. BTCUSDT)."))
    else if !(3 ≤ sym.length && sym.length ≤ 20) then
      Except.error (PyErr.valueError
        ("Symbol " ++ sym ++ " length must be between 3 and 20."))
    else Except.ok sym

/-- Embedding of `validators.validate_side`. -/
def validate_side (side : String) : Except PyErr String :=
  let s := pyUpper (pyStrip side)
  if s = "BUY" ∨ s = "SELL" then Except.ok s
  else Except.error (PyErr.valueError
    ("Side " ++ side ++ " is invalid. Choose from: BUY, SELL."))

/-- Embedding of `validators.validate_order_type`. -/
def validate_order_type (order_type : String) : Except PyErr String :=
  let t := pyUpper (pyStrip order_type)
  if t = "MARKET" ∨ t = "LIMIT" ∨ t = "STOP_MARKET" then Except.ok t
  else Except.error (PyErr.valueError
    ("Order type " ++ order_type ++ " is invalid. Choose from: LIMIT, MARKET, STOP_MARKET."))

/-- Embedding of `validators.validate_quantity`.  The `Decimal`
constructor's `InvalidOperation` is caught and re-raised as `ValueError`,
but the `qty <= 0` comparison sits outside the `try`, so a NaN quantity
lets `InvalidOperation` escape. -/
def validate_quantity (quantity : String) : Except PyErr Dec :=
  match pyDecParse quantity with
  | none => Except.error (PyErr.valueError
      ("Quantity " ++ quantity ++ " is not a valid number."))
  | some qty =>
    match decLE qty decZero with
    | none => Except.error PyErr.invalidOperation
    | some true => Except.error (PyErr.valueError
        ("Quantity must be greater than zero, got " ++ decToString qty ++ "."))
    | some false => Except.ok qty

/-- Embedding of `validators.validate_price`: `MARKET` ignores the price
entirely; other order types require a present, parseable, positive price.
As in `validate_quantity`, the `p <= 0` comparison sits outside the `try`,
so a NaN price lets `InvalidOperation` escape. -/
def validate_price (price : Option String) (order_type : String) : Except PyErr (Option Dec) :=
  if order_type = "MARKET" then Except.ok none
  else
    match price with
    | none => Except.error (PyErr.valueError
        ("Price is required for " ++ order_type ++ " orders. Supply it with --price."))
    | some ps =>
      if pyStrip ps = "" then
        Except.error (PyErr.valueError
          ("Price is required for " ++ order_type ++ " orders. Supply it with --price."))
      else
        match pyDecParse ps with
        | none => Except.error (PyErr.valueError
            ("Price " ++ ps ++ " is not a valid number."))
        | some p =>
          match decLE p decZero with
          | none => Except.error PyErr.invalidOperation
          | some true => Except.error (PyErr.valueError
              ("Price must be greater than zero, got " ++ decToString p ++ "."))
          | some false => Except.ok (some p)

/-- Result of `validators.validate_all`: the clean dict of validated
fields. -/
structure Validated where
  symbol : String
  side : String
  order_type : String
  quantity : Dec
  price : Option Dec
deriving DecidableEq, Repr

/-- Embedding of `validators.validate_all`: validate symbol, side, order
type, quantity and price in that order, stopping at the first failure. -/
def validate_all (symbol side order_type quantity : String)
    (price : Option String) : Except PyErr Validated := do
  let sym ← validate_symbol symbol
  let s ← validate_side side
  let ot ← validate_order_type order_type
  let qty ← validate_quantity quantity
  let p ← validate_price price ot
  pure { symbol := sym, side := s, order_type := ot, quantity := qty, price := p }

example : pyDecParse "0.01" = some (Dec.finite false 1 (-2)) := by decide
example : pyDecParse "NaN" = some (Dec.nan false false) := by decide
example : pyDecParse "" = none := by decide
example : pyDecParse " 2e3 " = some (Dec.finite false 2 3) := by decide
example : validate_quantity "NaN" = Except.error PyErr.invalidOperation := rfl
example : validate_quantity "0.01" = Except.ok (Dec.finite false 1 (-2)) := rfl
example : (validate_quantity "-1").isOk = false := by decide
example : decToString (Dec.finite false 1 (-2)) = "0.01" := by decide
example : decToString (Dec.finite true 25 3) = "-2.5E+4" := by decide
example : validate_symbol " btcusdt " = Except.ok "BTCUSDT" := rfl
example : (validate_symbol "BT").isOk = false := by decide

/-- JSON scalar values as they occur in the Binance order responses the
claims mention: integers and strings. -/
inductive JVal where
  | num (n : Int)
  | str (s : String)
deriving DecidableEq, Repr

/-- A parsed JSON object body: key/value pairs in document order. -/
abbrev JObj : Type := List (String × JVal)

/-- Lookup of `data[k]` / `data.get(k)` on a parsed body. -/
def jlookup (data : JObj) (k : String) : Option JVal :=
  (data.find? (fun kv => kv.1 == k)).map (fun kv => kv.2)

/-- Model of `requests`' `response.ok`: true exactly when the HTTP status
code is below 400. -/
def response_ok (status : Nat) : Bool := status < 400

/-- Outcome of the response-handling tail of `BinanceFuturesClient._post`:
either the parsed success payload is returned, or `BinanceAPIError(code,
msg)` is raised. -/
inductive PostResult where
  | success (data : JObj)
  | apiError (code : JVal) (msg : JVal)
deriving DecidableEq, Repr

/-- True exactly when the result is a raised `BinanceAPIError`. -/
def isApiError : PostResult → Bool
  | PostResult.apiError _ _ => true
  | PostResult.success _ => false

/-- Embedding of the response classification in
`BinanceFuturesClient._post` (after the HTTP call): a body that fails to
parse as JSON raises `BinanceAPIError(-1, "Non-JSON response: " + text)`;
otherwise, if the status is not ok or the body carries a `code` field
different from `200`, `BinanceAPIError` is raised with the body's
`code`/`msg` falling back to the HTTP status and raw text; otherwise the
payload is returned. -/
def classify_response (status : Nat) (parsed : Option JObj) (text : String) : PostResult :=
  match parsed with
  | none => PostResult.apiError (JVal.num (-1)) (JVal.str ("Non-JSON response: " ++ text))
  | some data =>
    let errFlag := !response_ok status ||
      (match jlookup data "code" with
       | some v => v != JVal.num 200
       | none => false)
    if errFlag then
      PostResult.apiError ((jlookup data "code").getD (JVal.num (status : Int)))
        ((jlookup data "msg").getD (JVal.str text))
    else PostResult.success data

/-- A Python dict with string keys and (stringified) values, in insertion
order. -/
abbrev Dict : Type := List (String × String)

/-- Keys of a dict in order. -/
def dictKeys (d : Dict) : List String := d.map (fun kv => kv.1)

/-- Model of `d[k] = v` on a Python dict: update in place when the key
exists (keeping its position), append at the end otherwise. -/
def dictSet (d : Dict) (k v : String) : Dict :=
  if (List.find? (fun kv => kv.1 == k) d).isSome then
    d.map (fun kv => if kv.1 == k then (k, v) else kv)
  else d ++ [(k, v)]

/-- Hexadecimal digit character (uppercase), as used by `urllib`'s
percent-encoding. -/
def hexDigit (n : Nat) : Char :=
  if n < 10 then Char.ofNat (48 + n) else Char.ofNat (55 + n)

/-- Bytes that `urllib.parse.quote_plus` leaves unescaped: ASCII letters,
digits, and `_ . - ~`. -/
def isSafeByte (n : Nat) : Bool :=
  (48 ≤ n && n ≤ 57) || (65 ≤ n && n ≤ 90) || (97 ≤ n && n ≤ 122) ||
    n = 95 || n = 46 || n = 45 || n = 126

/-- UTF-8 encoding of a single code point as byte values. -/
def utf8Bytes (n : Nat) : List Nat :=
  if n < 128 then [n]
  else if n < 2048 then [192 + n / 64, 128 + n % 64]
  else if n < 65536 then [224 + n / 4096, 128 + (n / 64) % 64, 128 + n % 64]
  else [240 + n / 262144, 128 + (n / 4096) % 64, 128 + (n / 64) % 64, 128 + n % 64]

/-- UTF-8 byte values of a string. -/
def strUtf8 (s : String) : List Nat :=
  s.toList.foldr (fun c acc => utf8Bytes c.toNat ++ acc) []

/-- Model of `urllib.parse.quote_plus`: UTF-8 bytes are kept when safe,
a space becomes `+`, and every other byte becomes `%XX` with uppercase
hex. -/
def quotePlus (s : String) : String :=
  String.mk ((strUtf8 s).foldr (fun n acc =>
    if isSafeByte n then Char.ofNat n :: acc
    else if n = 32 then '+' :: acc
    else '%' :: hexDigit (n / 16) :: hexDigit (n % 16) :: acc) [])

/-- Model of `urllib.parse.urlencode`: `key=value` pairs (each
`quote_plus`-encoded) joined by `&`, in dict order. -/
def urlencode (d : Dict) : String :=
  String.intercalate "&" (d.map (fun kv => quotePlus kv.1 ++ "=" ++ quotePlus kv.2))

/-- Embedding of `BinanceFuturesClient._sign`.  The HMAC-SHA256 hex digest
primitive (`hmac.new(secret, msg, sha256).hexdigest()`) is abstracted as
the function argument `hmac` from (secret, message) to digest string; the
current epoch-millisecond clock reading is the explicit argument `now`.
The payload gains `recvWindow = 5000` and `timestamp = now`, the query
string over all fields present at that point is signed, and the digest is
stored under `signature`. -/
def _sign (hmac : String → String → String) (secret : String) (now : Int)
    (params : Dict) : Dict :=
  let p1 := dictSet params "recvWindow" "5000"
  let p2 := dictSet p1 "timestamp" (toString now)
  let query_string := urlencode p2
  let signature := hmac secret query_string
  dictSet p2 "signature" signature

/-- The `signature` entry of a signed dict. -/
def signatureOf (d : Dict) : Option String :=
  (List.find? (fun kv => kv.1 == "signature") d).map (fun kv => kv.2)

/-- Embedding of the payload construction in `orders.place_order`: the
base dict always holds symbol, side, type and quantity; LIMIT adds
`price` and `timeInForce = "GTC"` (raising `ValueError` when the price is
missing); STOP_MARKET adds `stopPrice` (likewise requiring it); MARKET
adds nothing. -/
def place_order_payload (symbol side order_type : String) (quantity : Dec)
    (price : Option Dec) : Except PyErr Dict :=
  let payload : Dict :=
    [("symbol", symbol), ("side", side), ("type", order_type),
     ("quantity", decToString quantity)]
  if order_type = "LIMIT" then
    match price with
    | none => Except.error (PyErr.valueError "LIMIT orders require a price.")
    | some p =>
      Except.ok (dictSet (dictSet payload "price" (decToString p)) "timeInForce" "GTC")
  else if order_type = "STOP_MARKET" then
    match price with
    | none => Except.error (PyErr.valueError "STOP_MARKET orders require a stop price (--price).")
    | some p => Except.ok (dictSet payload "stopPrice" (decToString p))
  else Except.ok payload

/-- A heap of Python dict objects: dict references are indices into the
list, so aliasing and in-place mutation are explicit. -/
abbrev Heap : Type := List Dict

/-- Dereference a dict reference (out-of-range defaults to the empty
dict; theorems only use in-range references). -/
def heapGet (h : Heap) (r : Nat) : Dict := h.getD r []

/-- Model of the dict effects of `send_order` → `_post`: the statement
`signed_params = self._sign(params.copy())` allocates a fresh copy of the
caller's dict and runs the in-place mutations of `_sign` on that copy.
Returns the heap afterwards and the reference to the signed dict. -/
def send_order (hmac : String → String → String) (secret : String) (now : Int)
    (h : Heap) (r : Nat) : Heap × Nat :=
  let h1 : Heap := h ++ [heapGet h r]
  let r2 : Nat := h.length
  let h2 : Heap := h1.set r2 (_sign hmac secret now (heapGet h1 r2))
  (h2, r2)

example : dictSet [("a", "1")] "b" "2" = [("a", "1"), ("b", "2")] := by decide
example : dictSet [("a", "1"), ("b", "2")] "a" "9" = [("a", "9"), ("b", "2")] := by decide
example : urlencode [("symbol", "BTCUSDT"), ("quantity", "0.01")] = "symbol=BTCUSDT&quantity=0.01" := by decide
example : quotePlus "a b/c" = "a+b%2Fc" := by decide
example : classify_response 400 (some [("code", JVal.num (-1102)), ("msg", JVal.str "bad")]) "raw"
    = PostResult.apiError (JVal.num (-1102)) (JVal.str "bad") := by decide
example : classify_response 200 none "oops"
    = PostResult.apiError (JVal.num (-1)) (JVal.str "Non-JSON response: oops") := by decide
example : classify_response 200 (some [("orderId", JVal.num 5)]) "raw"
    = PostResult.success [("orderId", JVal.num 5)] := by decide

/-- Outcome of the HTTP POST performed by `_post`: a timeout, a
connection-level failure, or an HTTP response with status code, parsed
JSON body (when the body parses), and raw text. -/
inductive TransportResult where
  | timeout
  | connFailure (msg : String)
  | http (status : Nat) (parsed : Option JObj) (text : String)
deriving DecidableEq, Repr

/-- Exceptions raised by `send_order` / `_post`: `ConnectionError` for
transport failures, `BinanceAPIError` for everything the response
classifier rejects. -/
inductive SendErr where
  | connectionError (msg : String)
  | binanceApiError (code : JVal) (msg : JVal)
deriving DecidableEq, Repr

/-- Result of `client.send_order` given the transport outcome of its one
POST: timeouts and connection failures become `ConnectionError`, and the
response is classified by the tail of `_post`. -/
def send_order_result (t : TransportResult) : Except SendErr JObj :=
  match t with
  | TransportResult.timeout => Except.error (SendErr.connectionError "Request timed out after 10s.")
  | TransportResult.connFailure m => Except.error (SendErr.connectionError ("Network error: " ++ m))
  | TransportResult.http status parsed text =>
    match classify_response status parsed text with
    | PostResult.success data => Except.ok data
    | PostResult.apiError c m => Except.error (SendErr.binanceApiError c m)

/-- The command-line arguments reaching `main` after `argparse` (order
fields as raw strings; `price` optional; `check_connection` flag). -/
structure Args where
  symbol : String
  side : String
  order_type : String
  quantity : String
  price : Option String
  check_connection : Bool
deriving DecidableEq, Repr

/-- The external world `main` interacts with: the result of the optional
server-time GET and the transport outcome of the order POST as a function
of the payload sent. -/
structure World where
  serverTime : Except String Int
  post : Dict → TransportResult

/-- Observable steps of a `main` run, in order: `validation` marks the
`validate_all` call on the order fields, `credsMsg` the credentials
error message printed by `get_credentials`, `clientInit` the client
construction, `connCheck` the optional connectivity check, `orderSent`
the order POST. -/
inductive Step where
  | validation
  | credsMsg
  | clientInit
  | connCheck
  | orderSent
deriving DecidableEq, Repr

/-- Kind of the error message printed on standard error before `main`
exits with code 1. -/
inductive ErrKind where
  | validationError
  | credentials
  | configurationError
  | connectivity
  | orderError
  | apiError
  | networkError
  | unexpected
deriving DecidableEq, Repr

/-- Outcome of a process run: normal exit 0, exit 1 after a handled error
message, or an uncaught exception escaping `main` (the interpreter prints
a raw traceback). -/
inductive Outcome where
  | exit0
  | exit1 (kind : ErrKind)
  | crash (exc : PyErr)
deriving DecidableEq, Repr

/-- Steps 4 and 5 of `main`: optional connectivity check, then
`place_order` (payload construction, the POST via `send_order`, summary
printing), with `main`'s exception-to-exit mapping. -/
def mainPlace (v : Validated) (w : World) (tr : List Step) : List Step × Outcome :=
  match place_order_payload v.symbol v.side v.order_type v.quantity v.price with
  | Except.error _ => (tr, Outcome.exit1 ErrKind.orderError)
  | Except.ok payload =>
    match send_order_result (w.post payload) with
    | Except.error (SendErr.binanceApiError _ _) =>
      (tr ++ [Step.orderSent], Outcome.exit1 ErrKind.apiError)
    | Except.error (SendErr.connectionError _) =>
      (tr ++ [Step.orderSent], Outcome.exit1 ErrKind.networkError)
    | Except.ok _ => (tr ++ [Step.orderSent], Outcome.exit0)

/-- Embedding of `cli.main` with the credentials environment variables as
explicit inputs (`os.getenv` defaults them to `""`).  Order of steps, as
in the source: (2) `validate_all` on the order fields, catching only
`ValueError`; (3) `get_credentials`, which prints the credentials message
and exits 1 when either variable is empty, then the client construction;
(4) the optional connectivity check; (5) `place_order` with its
exception-to-exit-code mapping.  Returns the ordered trace of observable
steps and the process outcome. -/
def mainRun (api_key api_secret : String) (a : Args) (w : World) : List Step × Outcome :=
  match validate_all a.symbol a.side a.order_type a.quantity a.price with
  | Except.error (PyErr.valueError _) =>
    ([Step.validation], Outcome.exit1 ErrKind.validationError)
  | Except.error PyErr.invalidOperation =>
    ([Step.validation], Outcome.crash PyErr.invalidOperation)
  | Except.ok v =>
    if api_key = "" ∨ api_secret = "" then
      ([Step.validation, Step.credsMsg], Outcome.exit1 ErrKind.credentials)
    else
      let tr := [Step.validation, Step.clientInit]
      if a.check_connection then
        match w.serverTime with
        | Except.error _ => (tr ++ [Step.connCheck], Outcome.exit1 ErrKind.connectivity)
        | Except.ok _ => mainPlace v w (tr ++ [Step.connCheck])
      else mainPlace v w tr

/-- True when no `validation` step occurs strictly before the `credsMsg`
step in a trace. -/
def noValidationBeforeCreds (tr : List Step) : Bool :=
  (tr.takeWhile (fun s => s ≠ Step.credsMsg)).all (fun s => s ≠ Step.validation)

example :
    mainRun "" "sec"
      { symbol := "BTCUSDT", side := "BUY", order_type := "MARKET",
        quantity := "0.01", price := none, check_connection := false }
      { serverTime := Except.ok 0, post := fun _ => TransportResult.timeout }
    = ([Step.validation, Step.credsMsg], Outcome.exit1 ErrKind.credentials) := rfl

example :
    mainRun "k" "sec"
      { symbol := "BTCUSDT", side := "BUY", order_type := "MARKET",
        quantity := "NaN", price := none, check_connection := false }
      { serverTime := Except.ok 0, post := fun _ => TransportResult.timeout }
    = ([Step.validation], Outcome.crash PyErr.invalidOperation) := rfl

example :
    mainRun "k" "sec"
      { symbol := "BTCUSDT", side := "BUY", order_type := "MARKET",
        quantity := "0.01", price := none, check_connection := false }
      { serverTime := Except.ok 0,
        post := fun _ => TransportResult.http 200
          (some [("orderId", JVal.num 5), ("status", JVal.str "FILLED"),
                 ("executedQty", JVal.str "0.01")]) "body" }
    = ([Step.validation, Step.clientInit, Step.orderSent], Outcome.exit0) := rfl

theorem dictKeys_append (a b : Dict) : dictKeys (a ++ b) = dictKeys a ++ dictKeys b := by
  simp [dictKeys]

theorem dictSet_fresh (d : Dict) (k v : String) (h : k ∉ dictKeys d) :
    dictSet d k v = d ++ [(k, v)] := by
  have hf : List.find? (fun kv => kv.1 == k) d = none := by
    rw [List.find?_eq_none]
    intro x hx
    simp only [beq_iff_eq]
    intro hxk
    exact h (by simpa [dictKeys, hxk] using List.mem_map_of_mem Prod.fst hx)
  simp [dictSet, hf]

/-- C3: `_sign` serializes every payload field plus the added
`recvWindow` and `timestamp` (and not `signature`) as `key=value` pairs
joined by `&` in insertion order, feeds exactly that query string to the
HMAC-SHA256-hex primitive keyed by the account secret, and appends the
digest as the final `signature` field. -/
theorem sign_canonical (hmac : String → String → String) (secret : String)
    (now : Int) (params : Dict)
    (h1 : "recvWindow" ∉ dictKeys params)
    (h2 : "timestamp" ∉ dictKeys params)
    (h3 : "signature" ∉ dictKeys params) :
    _sign hmac secret now params =
      params ++ [("recvWindow", "5000"), ("timestamp", toString now),
        ("signature", hmac secret (urlencode
          (params ++ [("recvWindow", "5000"), ("timestamp", toString now)])))] := by
  have h2' : "timestamp" ∉ dictKeys (params ++ [("recvWindow", "5000")]) := by
    rw [dictKeys_append]
    simp only [List.mem_append]
    rintro (hc | hc)
    · exact h2 hc
    · simp [dictKeys] at hc
  have h3' : "signature" ∉ dictKeys (params ++ [("recvWindow", "5000"), ("timestamp", toString now)]) := by
    rw [dictKeys_append]
    simp only [List.mem_append]
    rintro (hc | hc)
    · exact h3 hc
    · simp [dictKeys] at hc
  unfold _sign
  simp only [dictSet_fresh _ _ _ h1, dictSet_fresh _ _ _ h2',
    List.append_assoc, List.singleton_append, List.cons_append, List.nil_append]
  rw [dictSet_fresh _ _ _ h3', List.append_assoc]
  rfl

/-- Witness for C3 at a concrete payload. -/
theorem sign_canonical_witness :
    _sign (fun _ q => q) "sec" 5 [("symbol", "BTCUSDT")] =
      [("symbol", "BTCUSDT")] ++ [("recvWindow", "5000"), ("timestamp", toString (5 : Int)),
        ("signature", (fun _ q => q) "sec" (urlencode
          ([("symbol", "BTCUSDT")] ++ [("recvWindow", "5000"), ("timestamp", toString (5 : Int))])))] :=
  sign_canonical _ _ _ _ (by decide) (by decide) (by decide)

/-- C7: signing is deterministic — identical payload, secret and
timestamp produce identical signatures. -/
theorem sign_deterministic (hmac : String → String → String) (secret : String)
    (now : Int) (p q : Dict) (h : p = q) :
    signatureOf (_sign hmac secret now p) = signatureOf (_sign hmac secret now q) := by
  rw [h]

/-- Witness for C7 at a concrete payload. -/
theorem sign_deterministic_witness :
    signatureOf (_sign (fun _ _ => "d") "s" 1 [("a", "b")]) =
      signatureOf (_sign (fun _ _ => "d") "s" 1 [("a", "b")]) :=
  sign_deterministic _ _ _ _ _ rfl

/-- C4 (code bug): on input `"NaN"`, `Decimal("NaN")` parses, so the
constructor's `try` does not fire, and the `qty <= 0` comparison outside
the `try` raises `decimal.InvalidOperation` — not the `ValueError` /
`InvalidInput` the claim (and the module's own docstring) promise. -/
theorem validate_quantity_nan_invalid_operation :
    validate_quantity "NaN" = Except.error PyErr.invalidOperation := rfl

/-- C6 (code bug): for a LIMIT order a price of `"NaN"` parses as a
Decimal and the `p <= 0` comparison outside the `try` raises
`decimal.InvalidOperation` instead of the promised `InvalidInput`. -/
theorem validate_price_nan_invalid_operation :
    validate_price (some "NaN") "LIMIT" = Except.error PyErr.invalidOperation := rfl

/-- C5 (code bug): with `--quantity NaN` the `decimal.InvalidOperation`
raised inside `validate_all` is not a `ValueError`, so `main`'s
`except ValueError` does not catch it and the process dies with a raw
unhandled traceback, contradicting the claim that every error is caught
and surfaced as a short message. -/
theorem main_nan_quantity_crash :
    mainRun "key" "sec"
      { symbol := "BTCUSDT", side := "BUY", order_type := "MARKET",
        quantity := "NaN", price := none, check_connection := false }
      { serverTime := Except.ok 0, post := fun _ => TransportResult.timeout }
    = ([Step.validation], Outcome.crash PyErr.invalidOperation) := rfl

/-- C1 counterexample: with `BINANCE_API_KEY` absent and valid order
fields, the run does exit 1 with the credentials message, but the
`validation` step precedes the `credsMsg` step in the trace, so the
credentials message is not printed before validation of the order fields
as the claim states. -/
theorem creds_after_validation_counterexample :
    mainRun "" "sec"
      { symbol := "BTCUSDT", side := "BUY", order_type := "MARKET",
        quantity := "0.01", price := none, check_connection := false }
      { serverTime := Except.ok 0, post := fun _ => TransportResult.timeout }
    = ([Step.validation, Step.credsMsg], Outcome.exit1 ErrKind.credentials) ∧
    noValidationBeforeCreds [Step.validation, Step.credsMsg] = false := ⟨rfl, rfl⟩

/-- C1 (amended): when either credentials variable is absent, the entry
point exits with code 1 and prints the credentials message, but only
after validation of the order fields has succeeded — validation runs
first, as the trace `[validation, credsMsg]` records. -/
theorem creds_missing_exit1_after_validation (api_key api_secret : String)
    (a : Args) (w : World)
    (hmiss : api_key = "" ∨ api_secret = "")
    (hval : ∃ v, validate_all a.symbol a.side a.order_type a.quantity a.price = Except.ok v) :
    mainRun api_key api_secret a w =
      ([Step.validation, Step.credsMsg], Outcome.exit1 ErrKind.credentials) := by
  rcases hval with ⟨v, hv⟩
  unfold mainRun
  rw [hv]
  dsimp only
  rw [if_pos hmiss]

/-- Witness for the amended C1 at a concrete environment and argument
vector. -/
theorem creds_missing_exit1_witness :
    mainRun "" "sec"
      { symbol := "ETHUSDT", side := "SELL", order_type := "LIMIT",
        quantity := "0.01", price := some "2000", check_connection := false }
      { serverTime := Except.ok 0, post := fun _ => TransportResult.timeout }
    = ([Step.validation, Step.credsMsg], Outcome.exit1 ErrKind.credentials) :=
  creds_missing_exit1_after_validation _ _ _ _ (Or.inl rfl) ⟨_, rfl⟩

/-- C9: the payload built by `place_order` holds exactly the keys
`symbol`, `side`, `type`, `quantity` as a base; a LIMIT order adds
`price` and `timeInForce = "GTC"`; a STOP_MARKET order adds `stopPrice`;
a MARKET order adds no price key at all (whatever price was passed). -/
theorem place_order_payload_keys (symbol side : String) (quantity : Dec)
    (price : Option Dec) (p : Dec) :
    place_order_payload symbol side "MARKET" quantity price =
      Except.ok [("symbol", symbol), ("side", side), ("type", "MARKET"),
        ("quantity", decToString quantity)] ∧
    place_order_payload symbol side "LIMIT" quantity (some p) =
      Except.ok [("symbol", symbol), ("side", side), ("type", "LIMIT"),
        ("quantity", decToString quantity), ("price", decToString p),
        ("timeInForce", "GTC")] ∧
    place_order_payload symbol side "STOP_MARKET" quantity (some p) =
      Except.ok [("symbol", symbol), ("side", side), ("type", "STOP_MARKET"),
        ("quantity", decToString quantity), ("stopPrice", decToString p)] :=
  ⟨rfl, rfl, rfl⟩

theorem heapGet_append_left (h : Heap) (h2 : List Dict) (r : Nat) (hr : r < h.length) :
    heapGet (h ++ h2) r = heapGet h r := by
  simp [heapGet, List.getD, List.getElem?_append_left hr]

theorem heapGet_set_ne (h : Heap) (i r : Nat) (d : Dict) (hne : i ≠ r) :
    heapGet (h.set i d) r = heapGet h r := by
  simp [heapGet, List.getD, List.getElem?_set_ne hne]

/-- C10: the caller's params dict is left unchanged by `send_order`:
`_post` signs `params.copy()`, so the `recvWindow`, `timestamp` and
`signature` entries added in place during signing land in the fresh copy
and the dict the caller holds a reference to is byte-for-byte the same
after the call. -/
theorem send_order_frame (hmac : String → String → String) (secret : String)
    (now : Int) (h : Heap) (r : Nat) (hr : r < h.length) :
    heapGet (send_order hmac secret now h r).1 r = heapGet h r := by
  unfold send_order
  have h1 : h.length ≠ r := by omega
  rw [heapGet_set_ne _ _ _ _ h1, heapGet_append_left _ _ _ hr]

/-- Witness for C10 at a concrete heap holding one params dict. -/
theorem send_order_frame_witness :
    heapGet (send_order (fun _ _ => "d") "s" 7 [[("symbol", "X")]] 0).1 0 =
      heapGet [[("symbol", "X")]] 0 :=
  send_order_frame _ _ _ _ _ (by decide)

/-- C2 counterexample: a non-JSON body is not classified into a category
distinct from ApiError — the code raises `BinanceAPIError(-1, "Non-JSON
response: " + text)`, the very same category as API errors, so the
claimed three-way outcome with a distinct ProtocolError is false already
at HTTP 200 with body `"oops"`. -/
theorem classify_nonjson_counterexample :
    isApiError (classify_response 200 none "oops") = true ∧
    classify_response 200 none "oops" =
      PostResult.apiError (JVal.num (-1)) (JVal.str "Non-JSON response: oops") :=
  ⟨rfl, rfl⟩

/-- C2 (amended): the classifier returns one of two outcomes.  A body
that does not parse as JSON gives `ApiError(-1, "Non-JSON response: " +
raw text)` regardless of HTTP status (there is no distinct ProtocolError
category).  Otherwise, if the HTTP status is outside the success range
(&ge; 400) or the body carries an explicit `code` other than 200, the
result is ApiError with the body's code and message when present,
falling back to the HTTP status code and raw text; otherwise the success
payload is returned.  The claim's two concrete examples hold. -/
theorem classify_response_amended :
    (∀ (status : Nat) (text : String), classify_response status none text =
      PostResult.apiError (JVal.num (-1)) (JVal.str ("Non-JSON response: " ++ text))) ∧
    (∀ (status : Nat) (data : JObj) (text : String),
      400 ≤ status ∨ (∃ v, jlookup data "code" = some v ∧ v ≠ JVal.num 200) →
      classify_response status (some data) text =
        PostResult.apiError ((jlookup data "code").getD (JVal.num (status : Int)))
          ((jlookup data "msg").getD (JVal.str text))) ∧
    (∀ (status : Nat) (data : JObj) (text : String),
      status < 400 → (∀ v, jlookup data "code" = some v → v = JVal.num 200) →
      classify_response status (some data) text = PostResult.success data) ∧
    classify_response 400 (some [("code", JVal.num (-1102)), ("msg", JVal.str "bad")]) "raw" =
      PostResult.apiError (JVal.num (-1102)) (JVal.str "bad") ∧
    classify_response 200 (some [("orderId", JVal.num 5), ("status", JVal.str "FILLED"),
        ("executedQty", JVal.str "0.01")]) "raw" =
      PostResult.success [("orderId", JVal.num 5), ("status", JVal.str "FILLED"),
        ("executedQty", JVal.str "0.01")] ∧
    jlookup [("orderId", JVal.num 5), ("status", JVal.str "FILLED"),
        ("executedQty", JVal.str "0.01")] "orderId" = some (JVal.num 5) := by
  refine ⟨fun _ _ => rfl, ?_, ?_, rfl, rfl, rfl⟩
  · intro status data text h
    have herr : (!response_ok status ||
        (match jlookup data "code" with
         | some v => v != JVal.num 200
         | none => false)) = true := by
      rcases h with h | ⟨v, hv, hne⟩
      · have hok : response_ok status = false := by
          simp only [response_ok, decide_eq_false_iff_not]
          omega
        simp [hok]
      · rw [hv]
        have hb : (v != JVal.num 200) = true := by simpa using hne
        simp [hb]
    simp only [classify_response, herr, if_true]
  · intro status data text hlt hcode
    have hok : response_ok status = true := by
      simp only [response_ok, decide_eq_true_eq]
      exact hlt
    have hmatch : (match jlookup data "code" with
         | some v => v != JVal.num 200
         | none => false) = false := by
      cases hj : jlookup data "code" with
      | none => rfl
      | some v =>
        have hv := hcode v hj
        subst hv
        simp
    simp only [classify_response, hok, hmatch, Bool.not_true, Bool.or_false, if_false]
    rfl

/-- Witness for the amended C2 on a body with no `code` field and a
failing HTTP status: the classifier falls back to the status code and
raw text. -/
theorem classify_response_amended_witness :
    classify_response 500 (some []) "oops" =
      PostResult.apiError ((jlookup ([] : JObj) "code").getD (JVal.num ((500 : Nat) : Int)))
        ((jlookup ([] : JObj) "msg").getD (JVal.str "oops")) :=
  classify_response_amended.2.1 500 [] "oops" (Or.inl (by omega))

theorem toNat_ofNat_small (n : Nat) (h : n < 55296) : (Char.ofNat n).toNat = n := by
  have hv : n.isValidChar := Or.inl h
  simp only [Char.ofNat, Char.toNat]
  rw [dif_pos hv]
  rfl

theorem isAlpha_upperChar (c : Char) : isAlphaChar (upperChar c) = isAlphaChar c := by
  unfold upperChar isAlphaChar
  by_cases h : 97 ≤ c.toNat ∧ c.toNat ≤ 122
  · rw [if_pos h, toNat_ofNat_small (c.toNat - 32) (by omega)]
    rw [Bool.eq_iff_iff]
    simp only [Bool.or_eq_true, Bool.and_eq_true, decide_eq_true_eq]
    omega
  · rw [if_neg h]

theorem pyUpper_toList (s : String) : (pyUpper s).toList = s.toList.map upperChar := rfl

theorem pyUpper_length (s : String) : (pyUpper s).length = s.length := by
  have h : (pyUpper s).length = (s.toList.map upperChar).length := rfl
  rw [h, List.length_map]
  rfl

theorem isEmpty_map (f : Char → Char) (l : List Char) : (l.map f).isEmpty = l.isEmpty := by
  cases l <;> rfl

theorem pyIsAlpha_pyUpper (s : String) : pyIsAlpha (pyUpper s) = pyIsAlpha s := by
  have hfun : (fun c => isAlphaChar (upperChar c)) = isAlphaChar := funext isAlpha_upperChar
  simp only [pyIsAlpha, pyUpper_toList, List.all_map, isEmpty_map, Function.comp_def, hfun]

theorem toList_eq_nil_imp (t : String) (h : t.toList = []) : t = "" := by
  cases t with
  | mk data => cases data with
    | nil => rfl
    | cons c cs => exact absurd h (by simp [String.toList])

/-- C8: `validate_symbol` returns the trimmed, upper-cased value whenever
the trimmed input is a non-empty all-alphabetic string of length 3 to 20;
it fails exactly when the trimmed input is empty, contains a
non-alphabetic character, or has length outside [3, 20]; and every
failure is an `InvalidInput` (`ValueError`). -/
theorem validate_symbol_spec (s : String) :
    ((pyStrip s ≠ "" ∧ (pyStrip s).toList.all isAlphaChar = true ∧
        3 ≤ (pyStrip s).length ∧ (pyStrip s).length ≤ 20) →
      validate_symbol s = Except.ok (pyUpper (pyStrip s))) ∧
    ((∃ e, validate_symbol s = Except.error e) ↔
      (pyStrip s = "" ∨ (pyStrip s).toList.all isAlphaChar = false ∨
        (pyStrip s).length < 3 ∨ 20 < (pyStrip s).length)) ∧
    (∀ e, validate_symbol s = Except.error e → ∃ m, e = PyErr.valueError m) := by
  by_cases h0 : pyStrip s = ""
  · have hval : validate_symbol s = Except.error (PyErr.valueError "Symbol must not be empty.") := by
      unfold validate_symbol
      rw [if_pos (Or.inr h0)]
    refine ⟨?_, ?_, ?_⟩
    · rintro ⟨hne, -⟩
      exact absurd h0 hne
    · exact ⟨fun _ => Or.inl h0, fun _ => ⟨_, hval⟩⟩
    · intro e he
      have h2 := hval.symm.trans he
      injection h2 with h2
      exact ⟨_, h2.symm⟩
  · have hcond : ¬(s = "" ∨ pyStrip s = "") := by
      rintro (h | h)
      · exact h0 (by rw [h]; rfl)
      · exact h0 h
    have hne : (pyStrip s).toList ≠ [] := by
      intro hl
      exact h0 (toList_eq_nil_imp _ hl)
    have hie : (pyStrip s).toList.isEmpty = false := by
      cases hl : (pyStrip s).toList with
      | nil => exact absurd hl hne
      | cons c cs => rfl
    have halpha : pyIsAlpha (pyUpper (pyStrip s)) = (pyStrip s).toList.all isAlphaChar := by
      rw [pyIsAlpha_pyUpper]
      unfold pyIsAlpha
      rw [hie]
      rfl
    have hlen : (pyUpper (pyStrip s)).length = (pyStrip s).length := pyUpper_length _
    by_cases ha : (pyStrip s).toList.all isAlphaChar = true
    · by_cases hl3 : 3 ≤ (pyStrip s).length ∧ (pyStrip s).length ≤ 20
      · have hval : validate_symbol s = Except.ok (pyUpper (pyStrip s)) := by
          unfold validate_symbol
          rw [if_neg hcond]
          dsimp only
          have h1 : (!pyIsAlpha (pyUpper (pyStrip s))) = false := by
            rw [halpha, ha]
            rfl
          have h2 : (!(decide (3 ≤ (pyUpper (pyStrip s)).length) &&
              decide ((pyUpper (pyStrip s)).length ≤ 20))) = false := by
            rw [hlen]
            simp [hl3.1, hl3.2]
          simp [h1, h2]
        refine ⟨fun _ => hval, ?_, ?_⟩
        · constructor
          · rintro ⟨e, he⟩
            rw [hval] at he
            exact Except.noConfusion he
          · rintro (h | h | h | h)
            · exact absurd h h0
            · rw [ha] at h
              exact Bool.noConfusion h
            · exact absurd h (by omega)
            · exact absurd h (by omega)
        · intro e he
          rw [hval] at he
          exact Except.noConfusion he
      · have h2f : (decide (3 ≤ (pyUpper (pyStrip s)).length) &&
            decide ((pyUpper (pyStrip s)).length ≤ 20)) = false := by
          rw [hlen]
          by_cases h3 : 3 ≤ (pyStrip s).length
          · have h4 : ¬((pyStrip s).length ≤ 20) := fun h4 => hl3 ⟨h3, h4⟩
            simp [h4]
          · simp [h3]
        have hval : validate_symbol s = Except.error (PyErr.valueError
            ("Symbol " ++ pyUpper (pyStrip s) ++ " length must be between 3 and 20.")) := by
          unfold validate_symbol
          rw [if_neg hcond]
          dsimp only
          have h1 : (!pyIsAlpha (pyUpper (pyStrip s))) = false := by
            rw [halpha, ha]
            rfl
          simp [h1, h2f]
        refine ⟨?_, ?_, ?_⟩
        · rintro ⟨-, -, hg3, hg20⟩
          exact absurd ⟨hg3, hg20⟩ hl3
        · constructor
          · intro
            have hd : (pyStrip s).length < 3 ∨ 20 < (pyStrip s).length := by omega
            rcases hd with h | h
            · exact Or.inr (Or.inr (Or.inl h))
            · exact Or.inr (Or.inr (Or.inr h))
          · intro
            exact ⟨_, hval⟩
        · intro e he
          have h2 := hval.symm.trans he
          injection h2 with h2
          exact ⟨_, h2.symm⟩
    · have haf : (pyStrip s).toList.all isAlphaChar = false := by
        cases hb : (pyStrip s).toList.all isAlphaChar
        · rfl
        · exact absurd hb ha
      have hval : validate_symbol s = Except.error (PyErr.valueError
          ("Symbol " ++ pyUpper (pyStrip s) ++ " must contain only letters (e.g. BTCUSDT).")) := by
        unfold validate_symbol
        rw [if_neg hcond]
        dsimp only
        have h1 : (!pyIsAlpha (pyUpper (pyStrip s))) = true := by
          rw [halpha, haf]
          rfl
        simp [h1]
      refine ⟨?_, ?_, ?_⟩
      · rintro ⟨-, hall, -⟩
        exact absurd hall ha
      · exact ⟨fun _ => Or.inr (Or.inl haf), fun _ => ⟨_, hval⟩⟩
      · intro e he
        have h2 := hval.symm.trans he
        injection h2 with h2
        exact ⟨_, h2.symm⟩

/-- Witness for C8: a lower-case symbol surrounded by whitespace is
accepted and returned trimmed and upper-cased. -/
theorem validate_symbol_spec_witness :
    validate_symbol " btcusdt " = Except.ok (pyUpper (pyStrip " btcusdt ")) :=
  (validate_symbol_spec " btcusdt ").1 ⟨by decide, by decide, by decide, by decide⟩
